import Mathlib

/-!
Shallow embedding of the product-retrieval layer of the fashion-product-search
service (`services/product_search_service.py`) together with the
`POST /api/create-look` endpoint of `main.py`.

Modelling conventions: Python floats become rationals, warehouse rows become
records, SQL strings are built by the same concatenations the Python f-strings
perform, and every external call (embedding model, BigQuery job) is an explicit
outcome of type `Except String _` supplied by an environment record, so that
the `try/except` control flow of the service methods becomes a `match` on
those outcomes.
-/

namespace FashionSearch

/-- Characters of the Python literal `gs://` that `_convert_gcs_uri_to_url`
tests with `startswith` and removes with `str.replace`. -/
def gsMark : List Char := ['g', 's', ':', '/', '/']

/-- Characters of the fixed URL head `https://storage.googleapis.com/`
prepended by `_convert_gcs_uri_to_url`. -/
def storageHead : List Char := "https://storage.googleapis.com/".data

/-- Python `str.replace("gs://", "")` specialised to its five-character
pattern: every non-overlapping occurrence is removed scanning left to
right. -/
def stripGs : List Char → List Char
  | [] => []
  | c :: rest =>
    if gsMark.isPrefixOf (c :: rest) then stripGs (rest.drop 4)
    else c :: stripGs rest
termination_by l => l.length
decreasing_by
  · simp only [List.length_drop, List.length_cons]; omega
  · simp

/-- Model of `ProductSearchService._convert_gcs_uri_to_url`: a string that is
empty or does not start with `gs://` is returned unchanged; otherwise every
occurrence of `gs://` is removed (Python `str.replace` replaces all
occurrences, not only the leading one) and the public storage host is
prepended. -/
def convert_gcs_uri_to_url (s : String) : String :=
  if s.data = [] ∨ gsMark.isPrefixOf s.data = false then s
  else ⟨storageHead ++ stripGs s.data⟩

/-- Row returned by the image-search and multi-category SQL queries over the
`synthetic_products` table: the nineteen selected columns plus the
`VECTOR_SEARCH` cosine distance. -/
structure ImageRow where
  product_id : String
  product_name : String
  brand_name : String
  category : String
  subcategory : Option String
  base_color : String
  secondary_color : Option String
  pattern : Option String
  fabric : Option String
  fit : Option String
  sleeve_length : Option String
  neck_style : Option String
  season : String
  occasion : Option String
  style : Option String
  price_original : ℚ
  price_discounted : Option ℚ
  description : String
  gcs_uri : String
  distance : ℚ
deriving DecidableEq

/-- Product dictionary shaped by the search methods.  `matched_category` is
`none` for `search_products_by_image` results and `some c` for
multi-category results, mirroring the extra key added there. -/
structure ProductRecord where
  id : String
  name : String
  description : String
  price : ℚ
  price_original : ℚ
  price_discounted : Option ℚ
  image_url : String
  color : String
  secondary_color : Option String
  category : String
  subcategory : Option String
  brand : String
  pattern : Option String
  fabric : Option String
  fit : Option String
  sleeve_length : Option String
  neck_style : Option String
  season : String
  occasion : Option String
  style : Option String
  gender : String
  similarity_score : ℚ
  matched_category : Option String
deriving DecidableEq

/-- Python expression `price_discounted if price_discounted else
price_original` (note that a stored discounted price of `0` is falsy and
falls back to the original price). -/
def pick_price (price_discounted : Option ℚ) (price_original : ℚ) : ℚ :=
  match price_discounted with
  | some v => if v = 0 then price_original else v
  | none => price_original

/-- Per-row result shaping of `search_products_by_image` (construction of the
`product` dict from a warehouse row): GCS-URI conversion, discounted-price
preference, `similarity_score = max(0.0, 1.0 - distance)`, and the constant
`"Women"` gender. -/
def format_row_image (row : ImageRow) : ProductRecord :=
  let image_url := convert_gcs_uri_to_url row.gcs_uri
  let price := pick_price row.price_discounted row.price_original
  let distance := row.distance
  let similarity_score := max 0 (1 - distance)
  { id := row.product_id
    name := row.product_name
    description := row.description
    price := if price = 0 then 0 else price
    price_original := if row.price_original = 0 then 0 else row.price_original
    price_discounted := match row.price_discounted with
      | some v => if v = 0 then none else some v
      | none => none
    image_url := image_url
    color := row.base_color
    secondary_color := row.secondary_color
    category := row.category
    subcategory := row.subcategory
    brand := row.brand_name
    pattern := row.pattern
    fabric := row.fabric
    fit := row.fit
    sleeve_length := row.sleeve_length
    neck_style := row.neck_style
    season := row.season
    occasion := row.occasion
    style := row.style
    gender := "Women"
    similarity_score := similarity_score
    matched_category := none }

/-- Per-row result shaping of the per-category loop of
`search_products_multi_category`: identical to the single-image case except
for the extra `matched_category` label. -/
def format_row_multi (category : String) (row : ImageRow) : ProductRecord :=
  let image_url_converted := convert_gcs_uri_to_url row.gcs_uri
  let price := pick_price row.price_discounted row.price_original
  let distance := row.distance
  let similarity_score := max 0 (1 - distance)
  { id := row.product_id
    name := row.product_name
    description := row.description
    price := if price = 0 then 0 else price
    price_original := if row.price_original = 0 then 0 else row.price_original
    price_discounted := match row.price_discounted with
      | some v => if v = 0 then none else some v
      | none => none
    image_url := image_url_converted
    color := row.base_color
    secondary_color := row.secondary_color
    category := row.category
    subcategory := row.subcategory
    brand := row.brand_name
    pattern := row.pattern
    fabric := row.fabric
    fit := row.fit
    sleeve_length := row.sleeve_length
    neck_style := row.neck_style
    season := row.season
    occasion := row.occasion
    style := row.style
    gender := "Women"
    similarity_score := similarity_score
    matched_category := some category }

/-- Subset of the application settings read by the search service
(`config.py`): the BigQuery dataset and table names and the boolean feature
flag selecting the indexed `VECTOR_SEARCH` query. -/
structure Settings where
  bigquery_dataset : String
  bigquery_table : String
  use_vector_index : Bool
deriving DecidableEq

/-- Python `"[" + ",".join(map(str, query_embedding)) + "]"` turning an
embedding vector into a SQL array literal. -/
def embedding_to_string (query_embedding : List ℚ) : String :=
  "[" ++ String.intercalate "," (query_embedding.map toString) ++ "]"

/-- Keys of `parsed_attributes["explicit_attributes"]` read by the query
builder.  Absent keys are modelled by `none`, the empty list or the empty
string, which coincide with Python falsiness of the stored values. -/
structure ExplicitAttributes where
  price_max : Option ℚ
  price_min : Option ℚ
  colors : List String
  gender : String
  season : String
deriving DecidableEq

/-- Keys of `parsed_attributes["inferred_needs"]` read by the query
builder. -/
structure InferredNeeds where
  garment_types : List String
deriving DecidableEq

/-- Parsed attributes dictionary produced by the NLU service, restricted to
the keys the search service reads. -/
structure ParsedAttributes where
  explicit_attributes : ExplicitAttributes
  inferred_needs : InferredNeeds
deriving DecidableEq

/-- Model of `_build_where_clauses`: one SQL condition per truthy filter
attribute, in source order (price_max, price_min, colors, garment_types,
gender, season). -/
def build_where_clauses (parsed_attributes : ParsedAttributes) : List String :=
  let explicit_attrs := parsed_attributes.explicit_attributes
  let inferred := parsed_attributes.inferred_needs
  (match explicit_attrs.price_max with
    | some v =>
      if v ≠ 0 then
        ["CAST(JSON_VALUE(metadata, \x27$.price.mrp\x27) AS FLOAT64) <= " ++ toString v]
      else []
    | none => []) ++
  (match explicit_attrs.price_min with
    | some v =>
      if v ≠ 0 then
        ["CAST(JSON_VALUE(metadata, \x27$.price.mrp\x27) AS FLOAT64) >= " ++ toString v]
      else []
    | none => []) ++
  (if explicit_attrs.colors ≠ [] then
      ["(" ++ String.intercalate " OR "
          (explicit_attrs.colors.map (fun c =>
            "LOWER(JSON_VALUE(metadata, \x27$.baseColour\x27)) LIKE \x27%" ++ c.toLower ++ "%\x27")) ++ ")"]
    else []) ++
  (if inferred.garment_types ≠ [] then
      ["(" ++ String.intercalate " OR "
          (inferred.garment_types.map (fun t =>
            "LOWER(JSON_VALUE(metadata, \x27$.articleType.typeName\x27)) LIKE \x27%" ++ t.toLower ++ "%\x27")) ++ ")"]
    else []) ++
  (if explicit_attrs.gender ≠ "" then
      ["LOWER(JSON_VALUE(metadata, \x27$.gender\x27)) = \x27" ++ explicit_attrs.gender.toLower ++ "\x27"]
    else []) ++
  (if explicit_attrs.season ≠ "" then
      ["LOWER(JSON_VALUE(metadata, \x27$.season\x27)) LIKE \x27%" ++ explicit_attrs.season.toLower ++ "%\x27"]
    else [])

/-- Model of `_build_vector_index_query`: the `VECTOR_SEARCH`-based template.
The `parsed_attributes` argument is received but, as in the source, never
used. -/
def build_vector_index_query (embedding_str : String) (parsed_attributes : ParsedAttributes)
    (limit : ℕ) (dataset table : String) : String :=
  "\n        SELECT\n            base.product_id,\n            base.product_name,\n            base.brand_name,\n            base.category,\n            base.subcategory,\n            base.base_color,\n            base.secondary_color,\n            base.pattern,\n            base.fabric,\n            base.fit,\n            base.sleeve_length,\n            base.neck_style,\n            base.season,\n            base.occasion,\n            base.style,\n            base.price_original,\n            base.price_discounted,\n            base.description,\n            base.gcs_uri,\n            distance\n        FROM VECTOR_SEARCH(\n            (SELECT * FROM `"
    ++ dataset ++ "." ++ table
    ++ "`),\n            \x27embedding\x27,\n            (SELECT "
    ++ embedding_str
    ++ " AS embedding),\n            top_k => "
    ++ toString limit
    ++ ",\n            distance_type => \x27COSINE\x27\n        )\n        "

/-- Model of `_build_manual_similarity_query`: the linear-scan cosine
similarity template, with the concatenated `WHERE` clause (empty string when
no filter attribute is present). -/
def build_manual_similarity_query (embedding_str : String) (parsed_attributes : ParsedAttributes)
    (limit : ℕ) (dataset table : String) : String :=
  let where_clauses := build_where_clauses parsed_attributes
  let where_clause :=
    if where_clauses = [] then ""
    else "WHERE " ++ String.intercalate " AND " where_clauses
  "\n        WITH query_embedding AS (\n            SELECT "
    ++ embedding_str
    ++ " AS embedding\n        )\n        SELECT\n            p.product_id,\n            p.gcs_uri,\n            p.metadata,\n            -- Calculate cosine similarity\n            (\n                SELECT SUM(a * b) / (\n                    SQRT(SUM(a * a)) * SQRT(SUM(b * b))\n                )\n                FROM UNNEST(p.embedding) AS a WITH OFFSET pos1\n                JOIN UNNEST(q.embedding) AS b WITH OFFSET pos2\n                ON pos1 = pos2\n            ) AS similarity_score\n        FROM\n            `"
    ++ dataset ++ "." ++ table
    ++ "` AS p,\n            query_embedding q\n        "
    ++ where_clause
    ++ "\n        ORDER BY\n            similarity_score DESC\n        LIMIT "
    ++ toString limit
    ++ "\n        "

/-- Model of `_build_vector_search_query`: stringify the embedding and
dispatch on the `use_vector_index` feature flag. -/
def build_vector_search_query (settings : Settings) (query_embedding : List ℚ)
    (parsed_attributes : ParsedAttributes) (limit : ℕ) : String :=
  let dataset := settings.bigquery_dataset
  let table := settings.bigquery_table
  let embedding_str := embedding_to_string query_embedding
  if settings.use_vector_index then
    build_vector_index_query embedding_str parsed_attributes limit dataset table
  else
    build_manual_similarity_query embedding_str parsed_attributes limit dataset table

/-- Model of `_build_category_specific_query`: `VECTOR_SEARCH` over the rows
whose category matches the detected garment.  The `subcategory` argument is
received but, as in the source, never used in the query text. -/
def build_category_specific_query (settings : Settings) (query_embedding : List ℚ)
    (category subcategory : String) (limit : ℕ) : String :=
  let dataset := settings.bigquery_dataset
  let table := settings.bigquery_table
  let embedding_str := embedding_to_string query_embedding
  let category_filter := "LOWER(category) = \x27" ++ category.toLower ++ "\x27"
  "\n        SELECT\n            base.product_id,\n            base.product_name,\n            base.brand_name,\n            base.category,\n            base.subcategory,\n            base.base_color,\n            base.secondary_color,\n            base.pattern,\n            base.fabric,\n            base.fit,\n            base.sleeve_length,\n            base.neck_style,\n            base.season,\n            base.occasion,\n            base.style,\n            base.price_original,\n            base.price_discounted,\n            base.description,\n            base.gcs_uri,\n            distance\n        FROM VECTOR_SEARCH(\n            (SELECT * FROM `"
    ++ dataset ++ "." ++ table
    ++ "` WHERE " ++ category_filter
    ++ "),\n            \x27embedding\x27,\n            (SELECT "
    ++ embedding_str
    ++ " AS embedding),\n            top_k => "
    ++ toString limit
    ++ ",\n            distance_type => \x27COSINE\x27\n        )\n        "

/-- Flattened view of the JSON `metadata` column read by
`search_products_by_text`; each field models one nested
`metadata.get(...)...get(...)` chain (for instance `description_value` is
`metadata["productDescriptors"]["description"]["value"]`). -/
structure TextMetadata where
  productDisplayName : Option String
  description_value : Option String
  price_mrp : Option ℚ
  baseColour : Option String
  articleType_typeName : Option String
  brandName : Option String
  season : Option String
  gender : Option String
deriving DecidableEq

/-- Row returned by the text-search SQL query: `product_id`, `gcs_uri`,
`metadata` and the computed `similarity_score` column. -/
structure TextRow where
  product_id : String
  gcs_uri : String
  metadata : TextMetadata
  similarity_score : ℚ
deriving DecidableEq

/-- Product dictionary shaped by `search_products_by_text` (it has fewer keys
than the image-search one and takes its `similarity_score` directly from the
warehouse column). -/
structure TextProduct where
  id : String
  name : String
  description : String
  price : ℚ
  image_url : String
  color : String
  category : String
  brand : String
  season : String
  gender : String
  similarity_score : ℚ
deriving DecidableEq

/-- Per-row result shaping of `search_products_by_text`. -/
def format_row_text (row : TextRow) : TextProduct :=
  let metadata := row.metadata
  { id := row.product_id
    name := metadata.productDisplayName.getD "Unknown Product"
    description := metadata.description_value.getD ""
    price := metadata.price_mrp.getD 0
    image_url := row.gcs_uri
    color := metadata.baseColour.getD ""
    category := metadata.articleType_typeName.getD ""
    brand := metadata.brandName.getD ""
    season := metadata.season.getD ""
    gender := metadata.gender.getD ""
    similarity_score := row.similarity_score }

/-- Outcomes of the external calls made by `search_products_by_text`.  The
text-embedding helper `_generate_text_embedding` catches its own exceptions
and returns a zero vector, so it always yields a plain vector; only the
warehouse query can fail.  `query` maps the SQL text the service submits to
the outcome BigQuery would produce for it. -/
structure TextSearchEnv where
  text_embedding : List ℚ
  query : String → Except String (List TextRow)

/-- Model of `search_products_by_text`: build the SQL query, run it, shape
the rows; any exception yields the empty list. -/
def search_products_by_text (settings : Settings) (env : TextSearchEnv)
    (parsed_attributes : ParsedAttributes) (limit : ℕ) : List TextProduct :=
  let sql_query := build_vector_search_query settings env.text_embedding parsed_attributes limit
  match env.query sql_query with
  | .error _ => []
  | .ok rows => rows.map format_row_text

/-- Outcomes of the external calls made by `search_products_by_image`:
`_generate_image_embedding` re-raises its errors, and the warehouse query can
fail.  `query` maps the SQL text the service submits to the outcome BigQuery
would produce for it. -/
structure ImageSearchEnv where
  embed_result : Except String (List ℚ)
  query : String → Except String (List ImageRow)

/-- Model of `search_products_by_image`: generate the concept-image
embedding, build the SQL query, run it, shape the rows; any exception is
caught by the enclosing `try/except` and yields the empty list. -/
def search_products_by_image (settings : Settings) (env : ImageSearchEnv)
    (parsed_attributes : ParsedAttributes) (limit : ℕ) : List ProductRecord :=
  match env.embed_result with
  | .error _ => []
  | .ok query_embedding =>
    let sql_query := build_vector_search_query settings query_embedding parsed_attributes limit
    match env.query sql_query with
    | .error _ => []
    | .ok rows => rows.map format_row_image

/-- Garment detected by `NLUService.analyze_garment_regions` in the concept
image. -/
structure Garment where
  category : String
  subcategory : String
  description : String
deriving DecidableEq

/-- Entry of the `garment_embeddings` list built by
`search_products_multi_category`. -/
structure GarmentEmbedding where
  category : String
  subcategory : String
  description : String
  embedding : List ℚ
deriving DecidableEq

/-- Construction of the `garment_embeddings` list (source lines 277-285): the
single concept-image embedding `query_embedding` is attached unchanged to
every detected garment. -/
def make_garment_embeddings (garments : List Garment) (query_embedding : List ℚ) :
    List GarmentEmbedding :=
  garments.map (fun garment =>
    { category := garment.category
      subcategory := garment.subcategory
      description := garment.description
      embedding := query_embedding })

/-- Per-category loop of `search_products_multi_category`: build and run one
category-specific query per garment, shaping each row batch; an exception in
any iteration aborts the loop and propagates to the enclosing
`try/except`. -/
def run_category_searches (settings : Settings)
    (query : String → Except String (List ImageRow)) (limit_per_category : ℕ) :
    List GarmentEmbedding → Except String (List (String × List ProductRecord))
  | [] => pure []
  | garment_data :: rest => do
    let sql_query := build_category_specific_query settings garment_data.embedding
      garment_data.category garment_data.subcategory limit_per_category
    let rows ← query sql_query
    let tail ← run_category_searches settings query limit_per_category rest
    pure ((garment_data.category, rows.map (format_row_multi garment_data.category)) :: tail)

/-- Return shape of `search_products_multi_category`. -/
structure MultiSearchResult where
  products_by_category : List (String × List ProductRecord)
  all_products : List ProductRecord
  search_mode : String

/-- Outcomes of the external calls made by `search_products_multi_category`:
garment-region analysis, concept-image embedding, the per-category warehouse
queries, and the environment of the fallback `search_products_by_image`
call. -/
structure MultiEnv where
  garments_result : Except String (List Garment)
  embed_result : Except String (List ℚ)
  query : String → Except String (List ImageRow)
  single : ImageSearchEnv

/-- Model of `search_products_multi_category`: analyze garments, attach the
shared image embedding to each, search per category; an empty garment list or
any exception falls back to `search_products_by_image` with twice the
per-category limit and mode `"single"`. -/
def search_products_multi_category (settings : Settings) (env : MultiEnv)
    (parsed_attributes : ParsedAttributes) (limit_per_category : ℕ) : MultiSearchResult :=
  let fallback : MultiSearchResult :=
    { products_by_category := []
      all_products :=
        search_products_by_image settings env.single parsed_attributes (limit_per_category * 2)
      search_mode := "single" }
  match env.garments_result with
  | .error _ => fallback
  | .ok garments =>
    if garments = [] then fallback
    else
      match env.embed_result with
      | .error _ => fallback
      | .ok query_embedding =>
        let garment_embeddings := make_garment_embeddings garments query_embedding
        match run_category_searches settings env.query limit_per_category garment_embeddings with
        | .error _ => fallback
        | .ok pairs =>
          { products_by_category := pairs
            all_products := (pairs.map Prod.snd).flatten
            search_mode := "multi_category" }

/-- Python `sep.join(parts)`. -/
def join_with (sep : String) : List String → String
  | [] => ""
  | [part] => part
  | part :: rest => part ++ sep ++ join_with sep rest

/-- Model of `generate_match_description`: fixed message for an empty product
list; otherwise sentence fragments (count, optional budget, optional
similarity qualifier) joined with `". "` and a final period.  The average
similarity is computed with the `if count > 0` guard of the source. -/
def generate_match_description (products : List ProductRecord)
    (parsed_attributes : ParsedAttributes) : String :=
  if products = [] then
    "No matching products found. Please try refining your search criteria."
  else
    let count := products.length
    let avg_similarity : ℚ :=
      if count > 0 then (products.map (fun p => p.similarity_score)).sum / (count : ℚ) else 0
    let description_parts :=
      ["Found " ++ toString count ++ " products that match your refined style concept"] ++
      (match parsed_attributes.explicit_attributes.price_max with
        | some v => if v ≠ 0 then ["within your budget of $" ++ toString v] else []
        | none => []) ++
      (if avg_similarity > 0.8 then ["with excellent similarity to your vision"]
       else if avg_similarity > 0.6 then ["with good matches to your preferences"]
       else [])
    join_with ". " description_parts ++ "."

/-- Payload returned by `LookGenerationService.generate_look_from_products`
on success. -/
structure LookResult where
  look_image_url : String
  description : String

/-- Body of the HTTP response of `POST /api/create-look`. -/
structure CreateLookResponse where
  look_image_url : String
  description : String
  products : List ProductRecord

/-- Model of the `create_look` endpoint handler of `main.py`: validate that
the product list has between 2 and 3 entries (HTTP 400 otherwise, raised
before the look service is invoked), then call the look-generation service,
converting any of its exceptions to HTTP 500. -/
def create_look (products : List ProductRecord)
    (generate_look : List ProductRecord → Except String LookResult) :
    Except ℕ CreateLookResponse :=
  if products.length < 2 then .error 400
  else if products.length > 3 then .error 400
  else
    match generate_look products with
    | .ok look_result =>
      .ok { look_image_url := look_result.look_image_url
            description := look_result.description
            products := products }
    | .error _ => .error 500

/-- Python truthiness of an optional numeric value (`None` and `0` are
falsy). -/
def truthyNum : Option ℚ → Bool
  | none => false
  | some v => v != 0

/-- Modelled from the spec: the number of present filter attributes among
`price_max`, `price_min`, `colors`, `garment_types`, `gender` and `season`
("one filter condition per present filter attribute"), presence meaning
Python truthiness. -/
def count_present (pa : ParsedAttributes) : ℕ :=
  (if truthyNum pa.explicit_attributes.price_max then 1 else 0) +
  (if truthyNum pa.explicit_attributes.price_min then 1 else 0) +
  (if pa.explicit_attributes.colors ≠ [] then 1 else 0) +
  (if pa.inferred_needs.garment_types ≠ [] then 1 else 0) +
  (if pa.explicit_attributes.gender ≠ "" then 1 else 0) +
  (if pa.explicit_attributes.season ≠ "" then 1 else 0)

/-- The `where_clause` string assembled inside
`_build_manual_similarity_query` (empty, or `WHERE` plus the `" AND "`-joined
conditions). -/
def where_fragment (pa : ParsedAttributes) : String :=
  if build_where_clauses pa = [] then ""
  else "WHERE " ++ String.intercalate " AND " (build_where_clauses pa)

/-- Modelled from the spec: the part of the manual-similarity template that
precedes the attribute `WHERE` clause. -/
def manual_query_head (embedding_str dataset table : String) : String :=
  "\n        WITH query_embedding AS (\n            SELECT "
    ++ embedding_str
    ++ " AS embedding\n        )\n        SELECT\n            p.product_id,\n            p.gcs_uri,\n            p.metadata,\n            -- Calculate cosine similarity\n            (\n                SELECT SUM(a * b) / (\n                    SQRT(SUM(a * a)) * SQRT(SUM(b * b))\n                )\n                FROM UNNEST(p.embedding) AS a WITH OFFSET pos1\n                JOIN UNNEST(q.embedding) AS b WITH OFFSET pos2\n                ON pos1 = pos2\n            ) AS similarity_score\n        FROM\n            `"
    ++ dataset ++ "." ++ table
    ++ "` AS p,\n            query_embedding q\n        "

/-- Modelled from the spec: the part of the manual-similarity template that
follows the attribute `WHERE` clause. -/
def manual_query_tail (limit : ℕ) : String :=
  "\n        ORDER BY\n            similarity_score DESC\n        LIMIT "
    ++ toString limit
    ++ "\n        "

/-- Whether the five characters of `gs://` occur (as a contiguous block)
anywhere in the character list. -/
def contains_gs : List Char → Bool
  | [] => false
  | c :: rest => gsMark.isPrefixOf (c :: rest) || contains_gs rest

/-- Sample warehouse row used by the concrete witnesses. -/
def sampleRow : ImageRow :=
  { product_id := "P001"
    product_name := "Silk Blouse"
    brand_name := "Maison"
    category := "Tops"
    subcategory := some "Blouse"
    base_color := "White"
    secondary_color := none
    pattern := none
    fabric := some "Silk"
    fit := some "Regular"
    sleeve_length := some "Long"
    neck_style := none
    season := "Summer"
    occasion := some "Work"
    style := some "Classic"
    price_original := 89
    price_discounted := some 69
    description := "A fitted white silk blouse."
    gcs_uri := "gs://catalog/p001.jpg"
    distance := 1/2 }

/-- Product shaped from `sampleRow` by the image-search row formatting. -/
def sampleProduct : ProductRecord := format_row_image sampleRow

/-- Warehouse row carrying a negative distance value, as an adversarial
warehouse outcome. -/
def negDistanceRow : ImageRow := { sampleRow with distance := -1 }

/-- Metadata with every optional key absent. -/
def emptyMetadata : TextMetadata :=
  { productDisplayName := none
    description_value := none
    price_mrp := none
    baseColour := none
    articleType_typeName := none
    brandName := none
    season := none
    gender := none }

/-- Text-search row whose warehouse cosine similarity is negative. -/
def cexTextRow : TextRow :=
  { product_id := "P002"
    gcs_uri := "gs://catalog/p002.jpg"
    metadata := emptyMetadata
    similarity_score := -1 }

/-- Parsed attributes with no filter attribute present. -/
def emptyAttrs : ParsedAttributes :=
  { explicit_attributes :=
      { price_max := none, price_min := none, colors := [], gender := "", season := "" }
    inferred_needs := { garment_types := [] } }

/-- Parsed attributes with only a maximum price present. -/
def priceAttrs : ParsedAttributes :=
  { explicit_attributes :=
      { price_max := some 100, price_min := none, colors := [], gender := "", season := "" }
    inferred_needs := { garment_types := [] } }

/-- Settings with the vector-index feature flag off. -/
def settingsW : Settings :=
  { bigquery_dataset := "ds", bigquery_table := "synthetic_products", use_vector_index := false }

/-- Settings with the vector-index feature flag on. -/
def settingsIdx : Settings :=
  { bigquery_dataset := "ds", bigquery_table := "synthetic_products", use_vector_index := true }

/-- Image-search environment where both external calls succeed and the
warehouse returns the single `sampleRow`. -/
def envW : ImageSearchEnv :=
  { embed_result := .ok [1, 0], query := fun _ => .ok [sampleRow] }

/-- Image-search environment whose embedding call raises. -/
def failEnv : ImageSearchEnv :=
  { embed_result := .error "embedding failed", query := fun _ => .ok [sampleRow] }

/-- Text-search environment returning the negative-similarity row. -/
def cexTextEnv : TextSearchEnv :=
  { text_embedding := [1, 0], query := fun _ => .ok [cexTextRow] }

/-- Image-search environment returning the negative-distance row. -/
def cexImageEnv : ImageSearchEnv :=
  { embed_result := .ok [1, 0], query := fun _ => .ok [negDistanceRow] }

/-- First sample detected garment. -/
def cexGarmentA : Garment :=
  { category := "Tops", subcategory := "Blouse", description := "fitted white silk blouse" }

/-- Second sample detected garment, entirely different from the first. -/
def cexGarmentB : Garment :=
  { category := "Bottoms", subcategory := "Skirt", description := "black pencil skirt" }

/-- Sample concept-image embedding. -/
def cexEmbedding : List ℚ := [1, 0]

/-- Look-generation service stub that always succeeds. -/
def lookGen : List ProductRecord → Except String LookResult :=
  fun _ => .ok { look_image_url := "/images/look_1.png", description := "A styled look." }

/-! Helper lemmas shared by the claim theorems. -/

lemma max_score_bounds (d : ℚ) (h : 0 ≤ d) :
    0 ≤ max (0 : ℚ) (1 - d) ∧ max (0 : ℚ) (1 - d) ≤ 1 := by
  constructor
  · exact le_max_left _ _
  · exact max_le (by norm_num) (by linarith)

lemma format_row_image_score (r : ImageRow) :
    (format_row_image r).similarity_score = max 0 (1 - r.distance) := rfl

lemma format_row_multi_score (c : String) (r : ImageRow) :
    (format_row_multi c r).similarity_score = max 0 (1 - r.distance) := rfl

lemma format_row_image_gender (r : ImageRow) :
    (format_row_image r).gender = "Women" := rfl

lemma format_row_multi_gender (c : String) (r : ImageRow) :
    (format_row_multi c r).gender = "Women" := rfl

lemma search_image_chars (settings : Settings) (env : ImageSearchEnv)
    (pa : ParsedAttributes) (limit : ℕ) :
    ∀ p ∈ search_products_by_image settings env pa limit,
      ∃ emb rows r, env.embed_result = .ok emb ∧
        env.query (build_vector_search_query settings emb pa limit) = .ok rows ∧
        r ∈ rows ∧ p = format_row_image r := by
  intro p hp
  cases he : env.embed_result with
  | error msg => simp [search_products_by_image, he] at hp
  | ok emb =>
    simp only [search_products_by_image, he] at hp
    cases hq : env.query (build_vector_search_query settings emb pa limit) with
    | error msg => simp [hq] at hp
    | ok rows =>
      simp only [hq] at hp
      obtain ⟨r, hr, hpr⟩ := List.mem_map.mp hp
      exact ⟨emb, rows, r, rfl, hq, hr, hpr.symm⟩

lemma run_cat_chars (settings : Settings) (query : String → Except String (List ImageRow))
    (limitp : ℕ) :
    ∀ (ges : List GarmentEmbedding) (pairs : List (String × List ProductRecord)),
      run_category_searches settings query limitp ges = .ok pairs →
      ∀ pr ∈ pairs, ∃ sql rows, query sql = .ok rows ∧
        pr.2 = rows.map (format_row_multi pr.1) := by
  intro ges
  induction ges with
  | nil =>
    intro pairs h pr hpr
    simp only [run_category_searches, pure, Except.pure, Except.ok.injEq] at h
    subst h
    simp at hpr
  | cons g rest ih =>
    intro pairs h pr hpr
    simp only [run_category_searches] at h
    cases hq : query (build_category_specific_query settings g.embedding g.category
        g.subcategory limitp) with
    | error msg => simp [hq, Bind.bind, Except.bind] at h
    | ok rows =>
      simp only [hq, Bind.bind, Except.bind] at h
      cases hr : run_category_searches settings query limitp rest with
      | error msg => simp [hr] at h
      | ok tail =>
        simp only [hr, pure, Except.pure, Except.ok.injEq] at h
        subst h
        rcases List.mem_cons.mp hpr with hhead | hmem
        · subst hhead
          exact ⟨_, rows, hq, rfl⟩
        · exact ih tail hr pr hmem

lemma multi_all_chars (settings : Settings) (env : MultiEnv) (pa : ParsedAttributes)
    (limitp : ℕ) :
    ∀ p ∈ (search_products_multi_category settings env pa limitp).all_products,
      (∃ r, p = format_row_image r ∧
        ∃ sql rows, env.single.query sql = .ok rows ∧ r ∈ rows) ∨
      (∃ c r, p = format_row_multi c r ∧
        ∃ sql rows, env.query sql = .ok rows ∧ r ∈ rows) := by
  intro p hp
  have fb : p ∈ search_products_by_image settings env.single pa (limitp * 2) →
      (∃ r, p = format_row_image r ∧
        ∃ sql rows, env.single.query sql = .ok rows ∧ r ∈ rows) ∨
      (∃ c r, p = format_row_multi c r ∧
        ∃ sql rows, env.query sql = .ok rows ∧ r ∈ rows) := by
    intro hw
    obtain ⟨emb, rows, r, _, hq, hr, hpr⟩ := search_image_chars settings env.single pa _ p hw
    exact Or.inl ⟨r, hpr, _, rows, hq, hr⟩
  cases hg : env.garments_result with
  | error msg =>
    simp only [search_products_multi_category, hg] at hp
    exact fb hp
  | ok garments =>
    simp only [search_products_multi_category, hg] at hp
    by_cases hempty : garments = []
    · rw [if_pos hempty] at hp
      exact fb hp
    · rw [if_neg hempty] at hp
      cases he : env.embed_result with
      | error msg =>
        simp only [he] at hp
        exact fb hp
      | ok emb =>
        simp only [he] at hp
        cases hrun : run_category_searches settings env.query limitp
            (make_garment_embeddings garments emb) with
        | error msg =>
          simp only [hrun] at hp
          exact fb hp
        | ok pairs =>
          simp only [hrun] at hp
          obtain ⟨l, hl, hpl⟩ := List.mem_flatten.mp hp
          obtain ⟨pr, hpr, rfl⟩ := List.mem_map.mp hl
          obtain ⟨sql, rows, hq, hrows⟩ := run_cat_chars settings env.query limitp _ pairs hrun pr hpr
          rw [hrows] at hpl
          obtain ⟨r, hr, hprr⟩ := List.mem_map.mp hpl
          exact Or.inr ⟨pr.1, r, hprr.symm, sql, rows, hq, hr⟩

set_option maxRecDepth 4000 in
lemma index_query_char (e : String) (pa : ParsedAttributes) (l : ℕ) (d t : String) :
    (build_vector_index_query e pa l d t).data[9]? = some 'S' := by
  simp only [build_vector_index_query, String.data_append, List.append_assoc]
  rw [List.getElem?_append, if_pos (by decide)]
  rfl

set_option maxRecDepth 4000 in
lemma manual_query_char (e : String) (pa : ParsedAttributes) (l : ℕ) (d t : String) :
    (build_manual_similarity_query e pa l d t).data[9]? = some 'W' := by
  simp only [build_manual_similarity_query, String.data_append, List.append_assoc]
  rw [List.getElem?_append, if_pos (by decide)]
  rfl

lemma index_ne_manual (e1 : String) (pa1 : ParsedAttributes) (l1 : ℕ) (d1 t1 : String)
    (e2 : String) (pa2 : ParsedAttributes) (l2 : ℕ) (d2 t2 : String) :
    build_vector_index_query e1 pa1 l1 d1 t1 ≠ build_manual_similarity_query e2 pa2 l2 d2 t2 := by
  intro h
  have h9 : (build_vector_index_query e1 pa1 l1 d1 t1).data[9]? =
      (build_manual_similarity_query e2 pa2 l2 d2 t2).data[9]? := by rw [h]
  rw [index_query_char, manual_query_char] at h9
  exact absurd h9 (by decide)

lemma storageHead_notGs (x : List Char) :
    gsMark.isPrefixOf (storageHead ++ x) = false := rfl

lemma stripGs_append_gsMark (l : List Char) : stripGs (gsMark ++ l) = stripGs l := by
  show stripGs ('g' :: 's' :: ':' :: '/' :: '/' :: l) = stripGs l
  rw [stripGs,
    if_pos (show gsMark.isPrefixOf ('g' :: 's' :: ':' :: '/' :: '/' :: l) = true by
      simp [gsMark, List.isPrefixOf])]
  rfl

lemma stripGs_no_occurrence : ∀ l, contains_gs l = false → stripGs l = l := by
  intro l
  induction l with
  | nil => intro _; rw [stripGs]
  | cons c rest ih =>
    intro h
    simp only [contains_gs, Bool.or_eq_false_iff] at h
    rw [stripGs, if_neg (by simp [h.1]), ih h.2]

lemma join_with_cons (sep first : String) (l : List String) :
    ∃ t, join_with sep (first :: l) = first ++ t := by
  cases l with
  | nil => exact ⟨"", (String.append_empty first).symm⟩
  | cons b bs => exact ⟨sep ++ join_with sep (b :: bs), String.append_assoc first sep _⟩

/-! Claim theorems. -/

/-- C1: for every warehouse row processed by `search_products_by_image` and
by the per-category loop of `search_products_multi_category`, the
`similarity_score` of the returned product record equals
`max 0 (1 - distance)`, for every distance in `[0, 2]`. -/
theorem similarity_from_distance (row : ImageRow) (category : String)
    (h0 : 0 ≤ row.distance) (h2 : row.distance ≤ 2) :
    (format_row_image row).similarity_score = max 0 (1 - row.distance) ∧
    (format_row_multi category row).similarity_score = max 0 (1 - row.distance) :=
  ⟨rfl, rfl⟩

/-- Witness for C1 at the concrete `sampleRow`, whose distance is 1/2. -/
theorem similarity_from_distance_witness :
    (format_row_image sampleRow).similarity_score = max 0 (1 - sampleRow.distance) ∧
    (format_row_multi "Tops" sampleRow).similarity_score = max 0 (1 - sampleRow.distance) :=
  similarity_from_distance sampleRow "Tops" (by norm_num [sampleRow]) (by norm_num [sampleRow])

/-- C2 counterexample: `search_products_by_text` passes the warehouse
similarity value through unclamped, so a negative cosine similarity yields a
product with `similarity_score = -1 < 0`; moreover a negative warehouse
distance makes `search_products_by_image` return a score `2 > 1`. -/
theorem scores_in_unit_interval_cex :
    ((search_products_by_text settingsW cexTextEnv emptyAttrs 20).map
        (fun p => p.similarity_score) = [-1] ∧ (-1 : ℚ) < 0) ∧
    ((search_products_by_image settingsW cexImageEnv emptyAttrs 20).map
        (fun p => p.similarity_score) = [2] ∧ (1 : ℚ) < 2) := by
  refine ⟨⟨by decide, by norm_num⟩, ⟨?_, by norm_num⟩⟩
  show [(format_row_image negDistanceRow).similarity_score] = [2]
  rw [format_row_image_score]
  have hd : negDistanceRow.distance = -1 := rfl
  rw [hd, max_def]
  norm_num

/-- C2 (amended): every product returned by `search_products_by_image`, and
every product in `all_products` of `search_products_multi_category`, has
`similarity_score ∈ [0, 1]` provided the warehouse rows carry nonnegative
distances; the original claim fails for `search_products_by_text`, whose
score is the unclamped warehouse value. -/
theorem scores_in_unit_interval (settings : Settings) (p : ProductRecord) :
    (∀ (env : ImageSearchEnv) (pa : ParsedAttributes) (limit : ℕ),
      (∀ sql rows, env.query sql = .ok rows → ∀ r ∈ rows, 0 ≤ r.distance) →
      p ∈ search_products_by_image settings env pa limit →
      0 ≤ p.similarity_score ∧ p.similarity_score ≤ 1) ∧
    (∀ (env : MultiEnv) (pa : ParsedAttributes) (limitp : ℕ),
      (∀ sql rows, env.query sql = .ok rows → ∀ r ∈ rows, 0 ≤ r.distance) →
      (∀ sql rows, env.single.query sql = .ok rows → ∀ r ∈ rows, 0 ≤ r.distance) →
      p ∈ (search_products_multi_category settings env pa limitp).all_products →
      0 ≤ p.similarity_score ∧ p.similarity_score ≤ 1) := by
  constructor
  · intro env pa limit hq hp
    obtain ⟨emb, rows, r, _, hok, hr, hpr⟩ := search_image_chars settings env pa limit p hp
    have hd := hq _ _ hok r hr
    rw [hpr, format_row_image_score]
    exact max_score_bounds r.distance hd
  · intro env pa limitp hq hsq hp
    rcases multi_all_chars settings env pa limitp p hp with
      ⟨r, hpr, sql, rows, hok, hr⟩ | ⟨c, r, hpr, sql, rows, hok, hr⟩
    · have hd := hsq _ _ hok r hr
      rw [hpr, format_row_image_score]
      exact max_score_bounds r.distance hd
    · have hd := hq _ _ hok r hr
      rw [hpr, format_row_multi_score]
      exact max_score_bounds r.distance hd

lemma sample_mem : sampleProduct ∈ search_products_by_image settingsW envW emptyAttrs 20 :=
  List.mem_singleton.mpr rfl

lemma envW_rows_nonneg :
    ∀ sql rows, envW.query sql = .ok rows → ∀ r ∈ rows, 0 ≤ r.distance := by
  intro sql rows h r hr
  simp only [envW, Except.ok.injEq] at h
  subst h
  rw [List.mem_singleton.mp hr]
  norm_num [sampleRow]

/-- Witness for C2 at a concrete search over `sampleRow`. -/
theorem scores_in_unit_interval_witness :
    0 ≤ sampleProduct.similarity_score ∧ sampleProduct.similarity_score ≤ 1 :=
  (scores_in_unit_interval settingsW sampleProduct).1 envW emptyAttrs 20
    envW_rows_nonneg sample_mem

/-- C3: `search_products_by_image` returns the empty list exactly when the
embedding call raises, the warehouse query raises, or the warehouse returns
zero rows; in this embedding the method is a total function into lists, so
every internal exception becomes the empty-list fallback rather than
propagating. -/
theorem image_search_empty_iff (settings : Settings) (env : ImageSearchEnv)
    (pa : ParsedAttributes) (limit : ℕ) :
    search_products_by_image settings env pa limit = [] ↔
      (∃ msg, env.embed_result = .error msg) ∨
      (∃ emb, env.embed_result = .ok emb ∧
        ((∃ msg, env.query (build_vector_search_query settings emb pa limit) = .error msg) ∨
          env.query (build_vector_search_query settings emb pa limit) = .ok [])) := by
  cases he : env.embed_result with
  | error msg => simp [search_products_by_image, he]
  | ok emb =>
    cases hq : env.query (build_vector_search_query settings emb pa limit) with
    | error m => simp [search_products_by_image, he, hq]
    | ok rows => simp [search_products_by_image, he, hq, List.map_eq_nil_iff]

/-- C4 counterexample: two entirely different detected garments receive the
same embedding — the shared concept-image embedding — contradicting the claim
that each detected garment is searched with its own garment-derived
embedding. -/
theorem shared_embedding_cex :
    (make_garment_embeddings [cexGarmentA, cexGarmentB] cexEmbedding).map
        (fun g => g.embedding) = [cexEmbedding, cexEmbedding] ∧
    cexGarmentA ≠ cexGarmentB :=
  ⟨rfl, by decide⟩

/-- C4 (amended): every entry of the `garment_embeddings` list used by the
per-category searches carries the single shared concept-image embedding; the
garment only contributes its category/subcategory labels, not a
garment-specific embedding. -/
theorem shared_embedding_per_garment (garments : List Garment) (query_embedding : List ℚ) :
    (∀ g ∈ make_garment_embeddings garments query_embedding,
      g.embedding = query_embedding) ∧
    (make_garment_embeddings garments query_embedding).map (fun g => g.category) =
      garments.map (fun g => g.category) := by
  constructor
  · intro g hg
    simp only [make_garment_embeddings] at hg
    obtain ⟨g0, _, rfl⟩ := List.mem_map.mp hg
    rfl
  · simp [make_garment_embeddings]

/-- Witness for C4: the single garment entry built from `cexGarmentA` carries
exactly the shared embedding. -/
theorem shared_embedding_per_garment_witness :
    (⟨"Tops", "Blouse", "fitted white silk blouse", cexEmbedding⟩ : GarmentEmbedding).embedding
      = cexEmbedding :=
  (shared_embedding_per_garment [cexGarmentA] cexEmbedding).1 _ (List.mem_singleton.mpr rfl)

/-- C5: `_build_vector_search_query` returns the `VECTOR_SEARCH`-based
template exactly when `use_vector_index` is true, and the manual
cosine-similarity template exactly when it is false; the two templates are
never equal (their texts differ at a fixed position), so the boolean flag
alone determines the choice, for every embedding, attribute set and limit. -/
theorem query_template_choice (settings : Settings) (query_embedding : List ℚ)
    (parsed_attributes : ParsedAttributes) (limit : ℕ) :
    (build_vector_search_query settings query_embedding parsed_attributes limit =
        build_vector_index_query (embedding_to_string query_embedding) parsed_attributes limit
          settings.bigquery_dataset settings.bigquery_table ↔
      settings.use_vector_index = true) ∧
    (build_vector_search_query settings query_embedding parsed_attributes limit =
        build_manual_similarity_query (embedding_to_string query_embedding) parsed_attributes limit
          settings.bigquery_dataset settings.bigquery_table ↔
      settings.use_vector_index = false) := by
  cases hf : settings.use_vector_index with
  | true =>
    have hq : build_vector_search_query settings query_embedding parsed_attributes limit =
        build_vector_index_query (embedding_to_string query_embedding) parsed_attributes limit
          settings.bigquery_dataset settings.bigquery_table := by
      simp [build_vector_search_query, hf]
    refine ⟨⟨fun _ => rfl, fun _ => hq⟩, ⟨fun h => ?_, fun h => by simp at h⟩⟩
    exact absurd (hq.symm.trans h) (index_ne_manual _ _ _ _ _ _ _ _ _ _)
  | false =>
    have hq : build_vector_search_query settings query_embedding parsed_attributes limit =
        build_manual_similarity_query (embedding_to_string query_embedding) parsed_attributes limit
          settings.bigquery_dataset settings.bigquery_table := by
      simp [build_vector_search_query, hf]
    refine ⟨⟨fun h => ?_, fun h => by simp at h⟩, ⟨fun _ => rfl, fun _ => hq⟩⟩
    exact absurd (hq.symm.trans h).symm (index_ne_manual _ _ _ _ _ _ _ _ _ _)

/-- C6 counterexample: a present filter attribute (a maximum price) leaves
the `VECTOR_SEARCH` index query completely unchanged — the attribute-filter
composition does not apply to the query built with the server-side index,
although the filter condition list is nonempty. -/
theorem attribute_filter_composition_cex :
    build_vector_index_query "[1]" priceAttrs 5 "ds" "tb" =
      build_vector_index_query "[1]" emptyAttrs 5 "ds" "tb" ∧
    build_where_clauses priceAttrs ≠ [] := by
  refine ⟨rfl, ?_⟩
  norm_num [build_where_clauses, priceAttrs]

/-- C6 (amended): `_build_where_clauses` produces one condition per present
filter attribute (price_max, price_min, colors, garment_types, gender,
season); the manual query splices them, joined with `" AND "`, as a single
`WHERE` clause that is empty exactly when no attribute is present; but this
composition applies only to the manual (non-index) query — the
`VECTOR_SEARCH` index query ignores the parsed attributes entirely. -/
theorem attribute_filter_composition (pa : ParsedAttributes) :
    (build_where_clauses pa).length = count_present pa ∧
    (∀ e l d t, build_manual_similarity_query e pa l d t =
        manual_query_head e d t ++ where_fragment pa ++ manual_query_tail l) ∧
    (where_fragment pa = "" ↔ count_present pa = 0) ∧
    (∀ e l d t pa2, build_vector_index_query e pa l d t =
        build_vector_index_query e pa2 l d t) := by
  have hlen : (build_where_clauses pa).length = count_present pa := by
    obtain ⟨⟨pmax, pmin, colors, gender, season⟩, ⟨gts⟩⟩ := pa
    simp only [build_where_clauses, count_present, truthyNum, List.length_append]
    cases pmax <;> cases pmin <;>
      simp only [bne_iff_ne, ne_eq, Bool.if_false_left, Bool.if_true_left] <;>
      split_ifs <;> simp_all
  refine ⟨hlen, ?_, ?_, fun e l d t pa2 => rfl⟩
  · intro e l d t
    simp only [build_manual_similarity_query, where_fragment, manual_query_head,
      manual_query_tail, String.append_assoc]
  · constructor
    · intro h
      rw [← hlen, List.length_eq_zero]
      by_contra hne
      rw [where_fragment, if_neg hne] at h
      have hdata := congrArg String.data h
      simp [String.data_append] at hdata
    · intro h
      have hnil : build_where_clauses pa = [] :=
        List.length_eq_zero.mp (hlen.trans h)
      rw [where_fragment, if_pos hnil]

/-- C7: `POST /api/create-look` responds 400, without invoking look
generation (the result does not depend on the generator), for product lists
of length below 2 or above 3; for lengths 2 and 3 validation passes and the
response is determined by the look-generation outcome (500 on its failure). -/
theorem create_look_product_count (products : List ProductRecord)
    (generate_look : List ProductRecord → Except String LookResult) :
    ((products.length < 2 ∨ 3 < products.length) →
      create_look products generate_look = .error 400) ∧
    (2 ≤ products.length → products.length ≤ 3 →
      create_look products generate_look =
        match generate_look products with
        | .ok look_result =>
          .ok { look_image_url := look_result.look_image_url
                description := look_result.description
                products := products }
        | .error _ => .error 500) := by
  constructor
  · intro h
    rcases h with h | h
    · unfold create_look
      rw [if_pos h]
    · unfold create_look
      rw [if_neg (by omega), if_pos h]
  · intro h2 h3
    unfold create_look
    rw [if_neg (by omega), if_neg (by omega)]

/-- Witness for C7: a one-product list is rejected with 400, a two-product
list passes validation and produces the generated look. -/
theorem create_look_product_count_witness :
    create_look [sampleProduct] lookGen = .error 400 ∧
    create_look [sampleProduct, sampleProduct] lookGen =
      .ok { look_image_url := "/images/look_1.png"
            description := "A styled look."
            products := [sampleProduct, sampleProduct] } := by
  constructor
  · exact (create_look_product_count [sampleProduct] lookGen).1 (Or.inl (by simp))
  · rw [(create_look_product_count [sampleProduct, sampleProduct] lookGen).2
      (by simp) (by simp)]
    rfl

/-- C8: `_convert_gcs_uri_to_url` is idempotent on every string, acts as the
identity on every string that is empty or does not start with `gs://`, and
maps `gs://` followed by a suffix containing no further `gs://` occurrence to
`https://storage.googleapis.com/` followed by that suffix. -/
theorem gcs_uri_conversion :
    (∀ s, convert_gcs_uri_to_url (convert_gcs_uri_to_url s) = convert_gcs_uri_to_url s) ∧
    (∀ s : String, s.data = [] ∨ gsMark.isPrefixOf s.data = false →
      convert_gcs_uri_to_url s = s) ∧
    (∀ rest : List Char, contains_gs rest = false →
      convert_gcs_uri_to_url ⟨gsMark ++ rest⟩ = ⟨storageHead ++ rest⟩) := by
  have hid : ∀ s : String, s.data = [] ∨ gsMark.isPrefixOf s.data = false →
      convert_gcs_uri_to_url s = s := by
    intro s h
    unfold convert_gcs_uri_to_url
    rw [if_pos h]
  refine ⟨?_, hid, ?_⟩
  · intro s
    by_cases h : s.data = [] ∨ gsMark.isPrefixOf s.data = false
    · rw [hid s h, hid s h]
    · have hs : convert_gcs_uri_to_url s = ⟨storageHead ++ stripGs s.data⟩ := by
        unfold convert_gcs_uri_to_url
        rw [if_neg h]
      rw [hs]
      exact hid _ (Or.inr (storageHead_notGs _))
  · intro rest h
    have hpre : gsMark.isPrefixOf (gsMark ++ rest) = true := by
      simp [gsMark, List.isPrefixOf]
    have hc : ¬((⟨gsMark ++ rest⟩ : String).data = [] ∨
        gsMark.isPrefixOf (⟨gsMark ++ rest⟩ : String).data = false) := by
      rintro (hab | hab)
      · exact absurd hab (by simp [gsMark])
      · rw [show (⟨gsMark ++ rest⟩ : String).data = gsMark ++ rest from rfl, hpre] at hab
        exact absurd hab (by simp)
    unfold convert_gcs_uri_to_url
    rw [if_neg hc,
      show (⟨gsMark ++ rest⟩ : String).data = gsMark ++ rest from rfl,
      stripGs_append_gsMark, stripGs_no_occurrence rest h]

/-- Witness for C8: conversion of the concrete URI `gs://bucket/img.png`. -/
theorem gcs_uri_conversion_witness :
    convert_gcs_uri_to_url ⟨gsMark ++ "bucket/img.png".data⟩ =
      ⟨storageHead ++ "bucket/img.png".data⟩ :=
  gcs_uri_conversion.2.2 "bucket/img.png".data (by decide)

/-- C9: every product record returned by `search_products_by_image` and every
product in `all_products` of `search_products_multi_category` has its
`gender` field equal to the constant `"Women"`, regardless of the warehouse
row contents. -/
theorem gender_always_women (settings : Settings) (p : ProductRecord) :
    (∀ (env : ImageSearchEnv) (pa : ParsedAttributes) (limit : ℕ),
      p ∈ search_products_by_image settings env pa limit → p.gender = "Women") ∧
    (∀ (env : MultiEnv) (pa : ParsedAttributes) (limitp : ℕ),
      p ∈ (search_products_multi_category settings env pa limitp).all_products →
      p.gender = "Women") := by
  constructor
  · intro env pa limit hp
    obtain ⟨emb, rows, r, _, _, _, hpr⟩ := search_image_chars settings env pa limit p hp
    rw [hpr]
    exact format_row_image_gender r
  · intro env pa limitp hp
    rcases multi_all_chars settings env pa limitp p hp with
      ⟨r, hpr, _⟩ | ⟨c, r, hpr, _⟩
    · rw [hpr]
      exact format_row_image_gender r
    · rw [hpr]
      exact format_row_multi_gender c r

/-- Witness for C9 at a concrete search over `sampleRow`. -/
theorem gender_always_women_witness : sampleProduct.gender = "Women" :=
  (gender_always_women settingsW sampleProduct).1 envW emptyAttrs 20 sample_mem

/-- C10: `generate_match_description` is total: the empty product list yields
exactly the fixed no-match message; every non-empty list has non-zero length
(so the guarded average-similarity division never divides by zero) and yields
a description beginning with `Found {count} products`. -/
theorem match_description_total (parsed_attributes : ParsedAttributes) :
    (generate_match_description [] parsed_attributes =
      "No matching products found. Please try refining your search criteria.") ∧
    (∀ products : List ProductRecord, products ≠ [] →
      products.length ≠ 0 ∧
      ∃ t, generate_match_description products parsed_attributes =
        "Found " ++ toString products.length ++ " products" ++ t) := by
  constructor
  · rfl
  · intro products hne
    refine ⟨fun h0 => hne (List.length_eq_zero.mp h0), ?_⟩
    unfold generate_match_description
    rw [if_neg hne]
    simp only [List.cons_append, List.nil_append]
    obtain ⟨t0, ht⟩ := join_with_cons ". "
      ("Found " ++ toString products.length ++
        " products that match your refined style concept") _
    refine ⟨" that match your refined style concept" ++ (t0 ++ "."), ?_⟩
    rw [ht]
    simp only [String.append_assoc]
    have hlit : (" products that match your refined style concept" : String) =
        " products" ++ " that match your refined style concept" := rfl
    rw [hlit]
    simp only [String.append_assoc]

/-- Witness for C10 at the concrete singleton list `[sampleProduct]`. -/
theorem match_description_total_witness :
    [sampleProduct].length ≠ 0 ∧
    ∃ t, generate_match_description [sampleProduct] emptyAttrs =
      "Found " ++ toString [sampleProduct].length ++ " products" ++ t :=
  (match_description_total emptyAttrs).2 [sampleProduct] (by simp)

end FashionSearch
